import Mathlib

/-
Shallow embedding of the Motion Coordinator of the X-Y table control system
(`src/core/movement.py`, class `MovementController`), together with the parts
of its collaborators that the coordinator observes: the configuration values it
reads through `ConfigManager.get` and the backend driver calls it issues
(`src/hardware/mesa_driver.py`, class `MesaDriver`).

Modelling conventions:
- Real-number speeds, distances and positions are modelled as rationals; the
  source only defaults, compares and forwards them, never performs
  float-specific arithmetic.
- A Python call that either returns a value or raises is modelled by `BRes`.
- Each coordinator operation is a pure function from the controller state, the
  driver behaviour and its arguments to: the Python outcome (`Except.ok` for a
  normal return, `Except.error` for a raised exception, classified by the spec
  taxonomy), the final controller state, and the list of backend calls issued,
  each annotated with the value of the movement-in-progress flag at the moment
  the call was made.
-/

deriving instance DecidableEq for Except

namespace XYTable

/-- The two controlled axes, the strings "x" and "y" in the source. -/
inductive Axis where
  | x
  | y
deriving DecidableEq, Repr

/-- Outcome of one backend (MesaDriver) call: a returned value, or a raised
exception. -/
inductive BRes (α : Type) where
  | ret (val : α)
  | exn
deriving DecidableEq, Repr

/-- The fields of the dict returned by `MesaDriver.read_status` that
`MovementController.get_emergency_stop_status` reads, with the `dict.get`
fallbacks (`False`) already applied for absent keys. -/
structure MesaStatusFields where
  connected : Bool
  emergency_stop : Bool
deriving DecidableEq, Repr

/-- Behaviour of the MesaDriver backend as observed by one coordinator
operation: the current connection state, and the outcome of each driver method
the movement controller may call. -/
structure MesaDriver where
  is_connected : Bool
  connect : BRes Bool
  move_axis : Axis → Rat → Rat → BRes Bool
  move_absolute : Rat → Rat → BRes Bool
  home_all_axes : BRes Bool
  emergency_stop : BRes Bool
  clear_emergency_stop : BRes Bool
  start_jog : Axis → Int → Rat → BRes Bool
  read_status : BRes MesaStatusFields

/-- One backend call, as recorded in an operation's trace. -/
inductive BCall where
  | is_connected
  | connect
  | move_axis (axis : Axis) (distance speed : Rat)
  | move_absolute (x y : Rat)
  | home_all_axes
  | emergency_stop
  | clear_emergency_stop
  | start_jog (axis : Axis) (direction : Int) (speed : Rat)
  | read_status
deriving DecidableEq, Repr

/-- A backend call together with the value of the controller's
movement-in-progress flag at the moment the call was issued. -/
structure BEvent where
  call : BCall
  moving : Bool
deriving DecidableEq, Repr

/-- The mutable state of `MovementController` used by the claims
(movement.py lines 29-30). -/
structure CtrlState where
  emergency_stop_active : Bool
  movement_in_progress : Bool
deriving DecidableEq, Repr

/-- The controller state right after `MovementController.__init__`. -/
def ctrl_init : CtrlState :=
  { emergency_stop_active := false, movement_in_progress := false }

/-- Error taxonomy of the coordinator, mapping the spec names onto the Python
exceptions: `safetyBlocked` is the RuntimeError raised on an active emergency
stop, `validationError` is the ValueError raised by `_validate_movement`,
`backendError` is the RuntimeError raised when a driver call returns False,
and `backendExn` is an exception propagated from the driver call itself. -/
inductive CtrlError where
  | safetyBlocked
  | validationError
  | backendError
  | backendExn
deriving DecidableEq, Repr

/-- The configuration values the movement controller reads, with the call-site
fallbacks already applied: `default_speed` is the value of
`config.get("movement.default_speed", 1.0)` and `max_speed a` the value of
`config.get` on the per-axis motor max-speed key with fallback 10.0.
`min_position` and `max_position` are the per-axis position bounds of the
configuration schema (`table.*_axis.min_position` / `max_position` in
config.py); `_validate_movement` never reads them. -/
structure Config where
  default_speed : Rat
  max_speed : Axis → Rat
  min_position : Axis → Rat
  max_position : Axis → Rat

/-- The connection preamble `if not is_connected(): connect()` that every
operation runs inside its try-block; `moving` is the in-progress flag at that
point. The Boolean result of `connect` is ignored, as in the source; an
exception from `connect` propagates. -/
def ensure_connected (drv : MesaDriver) (moving : Bool) :
    Option CtrlError × List BEvent :=
  if drv.is_connected then
    (none, [⟨BCall.is_connected, moving⟩])
  else
    match drv.connect with
    | BRes.ret _ => (none, [⟨BCall.is_connected, moving⟩, ⟨BCall.connect, moving⟩])
    | BRes.exn =>
        (some CtrlError.backendExn,
          [⟨BCall.is_connected, moving⟩, ⟨BCall.connect, moving⟩])

/-- `MovementController._validate_movement` (movement.py lines 204-215): only
the speed ceiling is checked; the distance argument is unused and there is no
position-bound or positivity check (the source carries a TODO there). -/
def validate_movement (cfg : Config) (axis : Axis) (distance speed : Rat) :
    Option CtrlError :=
  let max_speed := cfg.max_speed axis
  let _ := distance
  if speed > max_speed then some CtrlError.validationError else none

/-- `MovementController.move_single_axis` (movement.py lines 36-69). -/
def move_single_axis (cfg : Config) (drv : MesaDriver) (st : CtrlState)
    (axis : Axis) (distance speed : Option Rat) :
    Except CtrlError Unit × CtrlState × List BEvent :=
  if st.emergency_stop_active then
    (Except.error CtrlError.safetyBlocked, st, [])
  else
    let distance := distance.getD 0
    let speed := speed.getD cfg.default_speed
    match validate_movement cfg axis distance speed with
    | some e => (Except.error e, st, [])
    | none =>
      let done := { st with movement_in_progress := false }
      match ensure_connected drv true with
      | (some e, tr) => (Except.error e, done, tr)
      | (none, tr) =>
        let tr := tr ++ [⟨BCall.move_axis axis distance speed, true⟩]
        match drv.move_axis axis distance speed with
        | BRes.ret true => (Except.ok (), done, tr)
        | BRes.ret false => (Except.error CtrlError.backendError, done, tr)
        | BRes.exn => (Except.error CtrlError.backendExn, done, tr)

/-- `MovementController.move_absolute` (movement.py lines 70-109). The Boolean
result of the driver's `move_absolute` is not checked by the source, so a
False return is still a normal return. -/
def move_absolute (cfg : Config) (drv : MesaDriver) (st : CtrlState)
    (x_position y_position speed : Option Rat) :
    Except CtrlError Unit × CtrlState × List BEvent :=
  if st.emergency_stop_active then
    (Except.error CtrlError.safetyBlocked, st, [])
  else
    let x_position := x_position.getD 0
    let y_position := y_position.getD 0
    let speed := speed.getD cfg.default_speed
    match validate_movement cfg Axis.x x_position speed with
    | some e => (Except.error e, st, [])
    | none =>
      match validate_movement cfg Axis.y y_position speed with
      | some e => (Except.error e, st, [])
      | none =>
        let done := { st with movement_in_progress := false }
        match ensure_connected drv true with
        | (some e, tr) => (Except.error e, done, tr)
        | (none, tr) =>
          let tr := tr ++ [⟨BCall.move_absolute x_position y_position, true⟩]
          match drv.move_absolute x_position y_position with
          | BRes.ret _ => (Except.ok (), done, tr)
          | BRes.exn => (Except.error CtrlError.backendExn, done, tr)

/-- `MovementController.move_coordinated` (movement.py lines 111-153): two
sequential per-axis driver moves, X first, then Y only if X succeeded. -/
def move_coordinated (cfg : Config) (drv : MesaDriver) (st : CtrlState)
    (x_distance y_distance speed : Option Rat) :
    Except CtrlError Unit × CtrlState × List BEvent :=
  if st.emergency_stop_active then
    (Except.error CtrlError.safetyBlocked, st, [])
  else
    let x_distance := x_distance.getD 0
    let y_distance := y_distance.getD 0
    let speed := speed.getD cfg.default_speed
    match validate_movement cfg Axis.x x_distance speed with
    | some e => (Except.error e, st, [])
    | none =>
      match validate_movement cfg Axis.y y_distance speed with
      | some e => (Except.error e, st, [])
      | none =>
        let done := { st with movement_in_progress := false }
        match ensure_connected drv true with
        | (some e, tr) => (Except.error e, done, tr)
        | (none, tr) =>
          let tr := tr ++ [⟨BCall.move_axis Axis.x x_distance speed, true⟩]
          match drv.move_axis Axis.x x_distance speed with
          | BRes.ret false => (Except.error CtrlError.backendError, done, tr)
          | BRes.exn => (Except.error CtrlError.backendExn, done, tr)
          | BRes.ret true =>
            let tr := tr ++ [⟨BCall.move_axis Axis.y y_distance speed, true⟩]
            match drv.move_axis Axis.y y_distance speed with
            | BRes.ret true => (Except.ok (), done, tr)
            | BRes.ret false => (Except.error CtrlError.backendError, done, tr)
            | BRes.exn => (Except.error CtrlError.backendExn, done, tr)

/-- `MovementController.home_axes` (movement.py lines 155-177). Note that,
unlike the other motion operations, it contains no emergency-stop check and no
validation; the speed argument is defaulted to 0.0 and never used. -/
def home_axes (drv : MesaDriver) (st : CtrlState) (speed : Option Rat) :
    Except CtrlError Unit × CtrlState × List BEvent :=
  let _ := speed.getD 0
  let done := { st with movement_in_progress := false }
  match ensure_connected drv true with
  | (some e, tr) => (Except.error e, done, tr)
  | (none, tr) =>
    let tr := tr ++ [⟨BCall.home_all_axes, true⟩]
    match drv.home_all_axes with
    | BRes.ret true => (Except.ok (), done, tr)
    | BRes.ret false => (Except.error CtrlError.backendError, done, tr)
    | BRes.exn => (Except.error CtrlError.backendExn, done, tr)

/-- `MovementController.emergency_stop` (movement.py lines 179-190): the local
flag is set before the driver is contacted, and the Boolean result of the
driver's `emergency_stop` is ignored; only a raised exception propagates. -/
def emergency_stop (drv : MesaDriver) (st : CtrlState) :
    Except CtrlError Unit × CtrlState × List BEvent :=
  let st := { st with emergency_stop_active := true }
  match ensure_connected drv st.movement_in_progress with
  | (some e, tr) => (Except.error e, st, tr)
  | (none, tr) =>
    let tr := tr ++ [⟨BCall.emergency_stop, st.movement_in_progress⟩]
    match drv.emergency_stop with
    | BRes.ret _ => (Except.ok (), st, tr)
    | BRes.exn => (Except.error CtrlError.backendExn, st, tr)

/-- `MovementController.clear_emergency_stop` (movement.py lines 192-202): the
local flag is cleared before the driver is contacted, and the Boolean result
of the driver's `clear_emergency_stop` is ignored; only a raised exception
propagates. -/
def clear_emergency_stop (drv : MesaDriver) (st : CtrlState) :
    Except CtrlError Unit × CtrlState × List BEvent :=
  let st := { st with emergency_stop_active := false }
  match ensure_connected drv st.movement_in_progress with
  | (some e, tr) => (Except.error e, st, tr)
  | (none, tr) =>
    let tr := tr ++ [⟨BCall.clear_emergency_stop, st.movement_in_progress⟩]
    match drv.clear_emergency_stop with
    | BRes.ret _ => (Except.ok (), st, tr)
    | BRes.exn => (Except.error CtrlError.backendExn, st, tr)

/-- `MovementController.get_emergency_stop_status` (movement.py lines 222-235):
returns the cached flag on any failure, and otherwise, when the status dict
reports connected, overwrites the cached flag with the backend-reported value
and returns it. -/
def get_emergency_stop_status (drv : MesaDriver) (st : CtrlState) :
    Bool × CtrlState × List BEvent :=
  match ensure_connected drv st.movement_in_progress with
  | (some _, tr) => (st.emergency_stop_active, st, tr)
  | (none, tr) =>
    let tr := tr ++ [⟨BCall.read_status, st.movement_in_progress⟩]
    match drv.read_status with
    | BRes.exn => (st.emergency_stop_active, st, tr)
    | BRes.ret mesa_status =>
      if mesa_status.connected then
        let st := { st with emergency_stop_active := mesa_status.emergency_stop }
        (st.emergency_stop_active, st, tr)
      else
        (st.emergency_stop_active, st, tr)

/-- `MovementController.start_jog` (movement.py lines 242-260). -/
def start_jog (drv : MesaDriver) (st : CtrlState)
    (axis : Axis) (direction : Int) (speed : Rat) :
    Except CtrlError Unit × CtrlState × List BEvent :=
  if st.emergency_stop_active then
    (Except.error CtrlError.safetyBlocked, st, [])
  else
    match ensure_connected drv st.movement_in_progress with
    | (some e, tr) => (Except.error e, st, tr)
    | (none, tr) =>
      let tr := tr ++ [⟨BCall.start_jog axis direction speed, st.movement_in_progress⟩]
      match drv.start_jog axis direction speed with
      | BRes.ret true => (Except.ok (), st, tr)
      | BRes.ret false => (Except.error CtrlError.backendError, st, tr)
      | BRes.exn => (Except.error CtrlError.backendExn, st, tr)

/-- A backend behaviour in which the driver is connected and every call
succeeds; `read_status` reports connected with the emergency stop released. -/
def drvOK : MesaDriver :=
  { is_connected := true
    connect := BRes.ret true
    move_axis := fun _ _ _ => BRes.ret true
    move_absolute := fun _ _ => BRes.ret true
    home_all_axes := BRes.ret true
    emergency_stop := BRes.ret true
    clear_emergency_stop := BRes.ret true
    start_jog := fun _ _ _ => BRes.ret true
    read_status := BRes.ret { connected := true, emergency_stop := false } }

/-- A configuration with default speed 1, max speed 10 on both axes and
position bounds [0, 10] on both axes. -/
def cfg0 : Config :=
  { default_speed := 1
    max_speed := fun _ => 10
    min_position := fun _ => 0
    max_position := fun _ => 10 }

end XYTable

namespace XYTable

/-- Concrete backend behaviours used by witnesses and counterexamples. -/
def drvClearExn : MesaDriver := { drvOK with clear_emergency_stop := BRes.exn }

/-- A backend whose emergency-stop call reports failure by returning False. -/
def drvEstopFalse : MesaDriver := { drvOK with emergency_stop := BRes.ret false }

/-- A backend whose emergency-stop call raises. -/
def drvEstopExn : MesaDriver := { drvOK with emergency_stop := BRes.exn }

/-- A backend in which the X move succeeds and the Y move returns False. -/
def drvYFails : MesaDriver :=
  { drvOK with move_axis := fun a _ _ => if a = Axis.x then BRes.ret true else BRes.ret false }

/-- A configuration whose default movement speed exceeds both max speeds. -/
def cfgHighDefault : Config := { cfg0 with default_speed := 20 }

/-- Helper: `emergency_stop` returns normally or propagates a backend
exception; it can never raise the safety-blocked error. -/
theorem emergency_stop_result_shape (drv : MesaDriver) (st : CtrlState) :
    (emergency_stop drv st).1 = Except.ok () ∨
    (emergency_stop drv st).1 = Except.error CtrlError.backendExn := by
  unfold emergency_stop ensure_connected
  cases h1 : drv.is_connected <;> cases h2 : drv.connect <;>
    cases h3 : drv.emergency_stop <;> simp

/-- Helper: `clear_emergency_stop` returns normally or propagates a backend
exception; it can never raise the safety-blocked error. -/
theorem clear_emergency_stop_result_shape (drv : MesaDriver) (st : CtrlState) :
    (clear_emergency_stop drv st).1 = Except.ok () ∨
    (clear_emergency_stop drv st).1 = Except.error CtrlError.backendExn := by
  unfold clear_emergency_stop ensure_connected
  cases h1 : drv.is_connected <;> cases h2 : drv.connect <;>
    cases h3 : drv.clear_emergency_stop <;> simp

/-- Helper: `move_single_axis` never changes the emergency-stop flag. -/
theorem move_single_axis_preserves_estop (cfg : Config) (drv : MesaDriver)
    (st : CtrlState) (axis : Axis) (d s : Option Rat) :
    (move_single_axis cfg drv st axis d s).2.1.emergency_stop_active =
      st.emergency_stop_active := by
  unfold move_single_axis
  dsimp only
  repeat' split
  all_goals rfl

/-- Helper: `move_absolute` never changes the emergency-stop flag. -/
theorem move_absolute_preserves_estop (cfg : Config) (drv : MesaDriver)
    (st : CtrlState) (x y s : Option Rat) :
    (move_absolute cfg drv st x y s).2.1.emergency_stop_active =
      st.emergency_stop_active := by
  unfold move_absolute
  dsimp only
  repeat' split
  all_goals rfl

/-- Helper: `move_coordinated` never changes the emergency-stop flag. -/
theorem move_coordinated_preserves_estop (cfg : Config) (drv : MesaDriver)
    (st : CtrlState) (dx dy s : Option Rat) :
    (move_coordinated cfg drv st dx dy s).2.1.emergency_stop_active =
      st.emergency_stop_active := by
  unfold move_coordinated
  dsimp only
  repeat' split
  all_goals rfl

/-- Helper: `home_axes` never changes the emergency-stop flag. -/
theorem home_axes_preserves_estop (drv : MesaDriver) (st : CtrlState)
    (s : Option Rat) :
    (home_axes drv st s).2.1.emergency_stop_active = st.emergency_stop_active := by
  unfold home_axes
  dsimp only
  repeat' split
  all_goals rfl

/-- Helper: `start_jog` never changes the controller state at all. -/
theorem start_jog_preserves_state (drv : MesaDriver) (st : CtrlState)
    (axis : Axis) (direction : Int) (speed : Rat) :
    (start_jog drv st axis direction speed).2.1 = st := by
  unfold start_jog
  dsimp only
  repeat' split
  all_goals rfl

/-- Helper: `emergency_stop` always leaves the flag set. -/
theorem emergency_stop_sets_flag (drv : MesaDriver) (st : CtrlState) :
    (emergency_stop drv st).2.1.emergency_stop_active = true := by
  unfold emergency_stop
  dsimp only
  repeat' split
  all_goals rfl

/-- Helper: `clear_emergency_stop` always leaves the flag cleared. -/
theorem clear_emergency_stop_clears_flag (drv : MesaDriver) (st : CtrlState) :
    (clear_emergency_stop drv st).2.1.emergency_stop_active = false := by
  unfold clear_emergency_stop
  dsimp only
  repeat' split
  all_goals rfl

/-- Helper: `get_emergency_stop_status` either leaves the flag unchanged, or
overwrites it with the value the backend status dict reported while claiming
to be connected. -/
theorem get_status_flag_cases (drv : MesaDriver) (st : CtrlState) :
    (get_emergency_stop_status drv st).2.1.emergency_stop_active =
      st.emergency_stop_active ∨
    (∃ ms, drv.read_status = BRes.ret ms ∧ ms.connected = true ∧
      (get_emergency_stop_status drv st).2.1.emergency_stop_active =
        ms.emergency_stop) := by
  unfold get_emergency_stop_status ensure_connected
  cases h1 : drv.is_connected with
  | true =>
    cases h3 : drv.read_status with
    | ret ms =>
      cases hc : ms.connected with
      | false => exact Or.inl (by simp [hc])
      | true => exact Or.inr ⟨ms, rfl, hc, by simp [hc]⟩
    | exn => exact Or.inl (by simp)
  | false =>
    cases h2 : drv.connect with
    | ret b =>
      cases h3 : drv.read_status with
      | ret ms =>
        cases hc : ms.connected with
        | false => exact Or.inl (by simp [hc])
        | true => exact Or.inr ⟨ms, rfl, hc, by simp [hc]⟩
      | exn => exact Or.inl (by simp)
    | exn => exact Or.inl (by simp)

end XYTable

namespace XYTable

/-- C1 (counterexample): with the emergency-stop flag set, `home_axes`
proceeds normally and invokes the backend (no emergency-stop check exists in
movement.py lines 155-177), contradicting the claim that every motion-issuing
operation fails with SafetyBlocked and never reaches the backend. -/
theorem home_axes_ignores_estop_cex :
    (home_axes drvOK ⟨true, false⟩ none).1 = Except.ok () ∧
    (home_axes drvOK ⟨true, false⟩ none).2.2 =
      [⟨BCall.is_connected, true⟩, ⟨BCall.home_all_axes, true⟩] := by decide

/-- C1 (amended): with the emergency-stop flag set, `move_single_axis`,
`move_absolute`, `move_coordinated` and `start_jog` fail with SafetyBlocked,
leave the state unchanged and issue no backend call, while `emergency_stop`
and `clear_emergency_stop` themselves are never blocked by the flag;
`home_axes` is exempt from the gate. -/
theorem safety_gate_blocks_motion (cfg : Config) (drv : MesaDriver)
    (st : CtrlState) (h : st.emergency_stop_active = true)
    (axis jaxis : Axis) (d s x y dx dy : Option Rat)
    (jdir : Int) (jspeed : Rat) :
    move_single_axis cfg drv st axis d s =
      (Except.error CtrlError.safetyBlocked, st, []) ∧
    move_absolute cfg drv st x y s =
      (Except.error CtrlError.safetyBlocked, st, []) ∧
    move_coordinated cfg drv st dx dy s =
      (Except.error CtrlError.safetyBlocked, st, []) ∧
    start_jog drv st jaxis jdir jspeed =
      (Except.error CtrlError.safetyBlocked, st, []) ∧
    (emergency_stop drv st).1 ≠ Except.error CtrlError.safetyBlocked ∧
    (clear_emergency_stop drv st).1 ≠ Except.error CtrlError.safetyBlocked := by
  refine ⟨?_, ?_, ?_, ?_, ?_, ?_⟩
  · unfold move_single_axis; simp [h]
  · unfold move_absolute; simp [h]
  · unfold move_coordinated; simp [h]
  · unfold start_jog; simp [h]
  · rcases emergency_stop_result_shape drv st with h1 | h1 <;> simp [h1]
  · rcases clear_emergency_stop_result_shape drv st with h1 | h1 <;> simp [h1]

/-- C1 (witness): the gate theorem applied at a concrete blocked state. -/
theorem safety_gate_blocks_motion_witness :
    move_single_axis cfg0 drvOK ⟨true, false⟩ Axis.x (some 1) (some 1) =
      (Except.error CtrlError.safetyBlocked, ⟨true, false⟩, []) :=
  (safety_gate_blocks_motion cfg0 drvOK ⟨true, false⟩ (by decide)
    Axis.x Axis.y (some 1) (some 1) (some 1) (some 1) (some 1) (some 1) 1 1).1

/-- C2 (counterexample): with the backend clear call raising, the error is
surfaced, yet the local flag reads false afterward, contradicting the claim
that it remains true until a successful backend clear. -/
theorem clear_estop_fail_cex :
    (clear_emergency_stop drvClearExn ⟨true, false⟩).1 =
      Except.error CtrlError.backendExn ∧
    (clear_emergency_stop drvClearExn ⟨true, false⟩).2.1.emergency_stop_active =
      false := by decide

/-- C2 (amended): `clear_emergency_stop` clears the local flag unconditionally
before contacting the backend, so when the backend clear call raises, the
error is surfaced but the flag is nevertheless false afterward. -/
theorem clear_estop_clears_before_backend (drv : MesaDriver) (st : CtrlState)
    (hconn : drv.is_connected = true)
    (hexn : drv.clear_emergency_stop = BRes.exn) :
    (clear_emergency_stop drv st).2.1.emergency_stop_active = false ∧
    (clear_emergency_stop drv st).1 = Except.error CtrlError.backendExn := by
  unfold clear_emergency_stop ensure_connected
  simp [hconn, hexn]

/-- C2 (witness): the amended theorem at a concrete failing backend. -/
theorem clear_estop_clears_before_backend_witness :
    (clear_emergency_stop drvClearExn ⟨true, true⟩).2.1.emergency_stop_active =
      false ∧
    (clear_emergency_stop drvClearExn ⟨true, true⟩).1 =
      Except.error CtrlError.backendExn :=
  clear_estop_clears_before_backend drvClearExn ⟨true, true⟩ (by decide) (by decide)

/-- C3 (counterexample): when the backend emergency-stop call reports failure
by returning False, the controller ignores the result and reports success, so
no error is surfaced, contradicting the claim for the returns-false case (the
flag does remain true). -/
theorem estop_false_return_ignored_cex :
    drvEstopFalse.emergency_stop = BRes.ret false ∧
    (emergency_stop drvEstopFalse ctrl_init).1 = Except.ok () ∧
    (emergency_stop drvEstopFalse ctrl_init).2.1.emergency_stop_active =
      true := by decide

/-- C3 (amended): `emergency_stop` sets the local flag unconditionally before
contacting the backend and the flag is still true after every execution; when
the backend call raises, the error is surfaced; a False return from the
backend is ignored and reported as success. -/
theorem estop_sets_flag_fail_safe (drv : MesaDriver) (st : CtrlState) :
    (emergency_stop drv st).2.1.emergency_stop_active = true ∧
    (drv.is_connected = true → drv.emergency_stop = BRes.exn →
      (emergency_stop drv st).1 = Except.error CtrlError.backendExn) ∧
    (drv.is_connected = true → ∀ b, drv.emergency_stop = BRes.ret b →
      (emergency_stop drv st).1 = Except.ok ()) := by
  refine ⟨emergency_stop_sets_flag drv st, ?_, ?_⟩
  · intro hconn hexn
    unfold emergency_stop ensure_connected
    simp [hconn, hexn]
  · intro hconn b hret
    unfold emergency_stop ensure_connected
    simp [hconn, hret]

/-- C3 (witness): the fail-safe theorem at a concrete raising backend. -/
theorem estop_sets_flag_fail_safe_witness :
    (emergency_stop drvEstopExn ctrl_init).2.1.emergency_stop_active = true ∧
    (emergency_stop drvEstopExn ctrl_init).1 =
      Except.error CtrlError.backendExn :=
  ⟨(estop_sets_flag_fail_safe drvEstopExn ctrl_init).1,
    (estop_sets_flag_fail_safe drvEstopExn ctrl_init).2.1 (by decide) (by decide)⟩

/-- C4 (counterexample): a status read changes the flag: with the local flag
set and the backend status dict reporting connected with the emergency stop
released, `get_emergency_stop_status` overwrites the local flag to false,
contradicting the claim that only `clear_emergency_stop` clears it. -/
theorem status_read_clears_flag_cex :
    (get_emergency_stop_status drvOK ⟨true, false⟩).2.1.emergency_stop_active =
      false ∧
    (⟨true, false⟩ : CtrlState).emergency_stop_active = true := by decide

/-- C4 (amended): the flag is false at startup, is set true by
`emergency_stop`, is set false by `clear_emergency_stop`, and is never changed
by the motion or jog operations; additionally, `get_emergency_stop_status`
either leaves it unchanged or overwrites it with the backend-reported value
when the backend status read succeeds and reports connected. -/
theorem estop_flag_transitions :
    ctrl_init.emergency_stop_active = false ∧
    (∀ cfg drv st axis d s,
      (move_single_axis cfg drv st axis d s).2.1.emergency_stop_active =
        st.emergency_stop_active) ∧
    (∀ cfg drv st x y s,
      (move_absolute cfg drv st x y s).2.1.emergency_stop_active =
        st.emergency_stop_active) ∧
    (∀ cfg drv st dx dy s,
      (move_coordinated cfg drv st dx dy s).2.1.emergency_stop_active =
        st.emergency_stop_active) ∧
    (∀ drv st s,
      (home_axes drv st s).2.1.emergency_stop_active =
        st.emergency_stop_active) ∧
    (∀ drv st axis dir sp,
      (start_jog drv st axis dir sp).2.1.emergency_stop_active =
        st.emergency_stop_active) ∧
    (∀ drv st, (emergency_stop drv st).2.1.emergency_stop_active = true) ∧
    (∀ drv st, (clear_emergency_stop drv st).2.1.emergency_stop_active = false) ∧
    (∀ drv st,
      (get_emergency_stop_status drv st).2.1.emergency_stop_active =
        st.emergency_stop_active ∨
      (∃ ms, drv.read_status = BRes.ret ms ∧ ms.connected = true ∧
        (get_emergency_stop_status drv st).2.1.emergency_stop_active =
          ms.emergency_stop)) :=
  ⟨rfl,
    fun cfg drv st axis d s => move_single_axis_preserves_estop cfg drv st axis d s,
    fun cfg drv st x y s => move_absolute_preserves_estop cfg drv st x y s,
    fun cfg drv st dx dy s => move_coordinated_preserves_estop cfg drv st dx dy s,
    fun drv st s => home_axes_preserves_estop drv st s,
    fun drv st axis dir sp => by rw [start_jog_preserves_state drv st axis dir sp],
    fun drv st => emergency_stop_sets_flag drv st,
    fun drv st => clear_emergency_stop_clears_flag drv st,
    fun drv st => get_status_flag_cases drv st⟩

end XYTable

namespace XYTable

/-- Helper: the connection preamble either succeeds (with one or two events)
or fails with a propagated connect exception (two events); its event list is
never empty and every event carries the given moving flag. -/
theorem ensure_connected_shape (drv : MesaDriver) (m : Bool) :
    ensure_connected drv m = (none, [⟨BCall.is_connected, m⟩]) ∨
    ensure_connected drv m =
      (none, [⟨BCall.is_connected, m⟩, ⟨BCall.connect, m⟩]) ∨
    ensure_connected drv m =
      (some CtrlError.backendExn,
        [⟨BCall.is_connected, m⟩, ⟨BCall.connect, m⟩]) := by
  unfold ensure_connected
  cases h1 : drv.is_connected <;> cases h2 : drv.connect <;> simp

/-- C5 (counterexample): a negative speed is accepted: it passes validation
and the backend move is dispatched, contradicting the claim that requests
with speed at most zero are rejected with a ValidationError before any
backend call. -/
theorem negative_speed_reaches_backend_cex :
    (-5 : Rat) ≤ 0 ∧
    (move_single_axis cfg0 drvOK ctrl_init Axis.x (some 1) (some (-5))).1 =
      Except.ok () ∧
    (move_single_axis cfg0 drvOK ctrl_init Axis.x (some 1) (some (-5))).2.2 =
      [⟨BCall.is_connected, true⟩, ⟨BCall.move_axis Axis.x 1 (-5), true⟩] := by
  decide

/-- C5 (amended): `_validate_movement` checks only the max-speed ceiling, so
any speed at most the axis max speed — including zero and negative speeds —
passes validation and the backend is contacted. -/
theorem speed_lower_bound_unchecked (cfg : Config) (drv : MesaDriver)
    (st : CtrlState) (axis : Axis) (d speed : Rat)
    (hstop : st.emergency_stop_active = false)
    (hle : speed ≤ cfg.max_speed axis) :
    (move_single_axis cfg drv st axis (some d) (some speed)).1 ≠
      Except.error CtrlError.validationError ∧
    (move_single_axis cfg drv st axis (some d) (some speed)).2.2 ≠ [] := by
  have hv : validate_movement cfg axis d speed = none := by
    unfold validate_movement
    simp [not_lt.mpr hle]
  unfold move_single_axis
  dsimp only
  rw [if_neg (by simp [hstop]), Option.getD_some, Option.getD_some, hv]
  rcases ensure_connected_shape drv true with h | h | h <;> rw [h]
  · rcases h3 : drv.move_axis axis d speed with ⟨_ | _⟩ | _ <;> simp
  · rcases h3 : drv.move_axis axis d speed with ⟨_ | _⟩ | _ <;> simp
  · simp

/-- C5 (witness): the amended theorem at speed -5 against max speed 10. -/
theorem speed_lower_bound_unchecked_witness :
    (move_single_axis cfg0 drvOK ctrl_init Axis.x (some 1) (some (-5))).1 ≠
      Except.error CtrlError.validationError ∧
    (move_single_axis cfg0 drvOK ctrl_init Axis.x (some 1) (some (-5))).2.2 ≠
      [] :=
  speed_lower_bound_unchecked cfg0 drvOK ctrl_init Axis.x 1 (-5)
    (by decide) (by decide)

/-- C6: a speed strictly above the axis max speed makes `move_single_axis`
raise the validation error with the state unchanged and no backend call, for
any distance (explicit or omitted). -/
theorem speed_ceiling_enforced (cfg : Config) (drv : MesaDriver)
    (st : CtrlState) (axis : Axis) (d : Option Rat) (speed : Rat)
    (hstop : st.emergency_stop_active = false)
    (hgt : speed > cfg.max_speed axis) :
    move_single_axis cfg drv st axis d (some speed) =
      (Except.error CtrlError.validationError, st, []) := by
  have hv : validate_movement cfg axis (d.getD 0) speed =
      some CtrlError.validationError := by
    unfold validate_movement
    simp [hgt]
  unfold move_single_axis
  dsimp only
  rw [if_neg (by simp [hstop]), Option.getD_some, hv]

/-- C6 (witness): speed 15 against max speed 10 is rejected without any
backend call. -/
theorem speed_ceiling_enforced_witness :
    move_single_axis cfg0 drvOK ctrl_init Axis.x (some 1) (some 15) =
      (Except.error CtrlError.validationError, ctrl_init, []) :=
  speed_ceiling_enforced cfg0 drvOK ctrl_init Axis.x (some 1) 15
    (by decide) (by decide)

/-- C7 (counterexample): a target far outside the configured position bounds
is accepted by `move_absolute` and dispatched to the backend, contradicting
the claim that out-of-bounds targets are rejected with a ValidationError
before any backend call. -/
theorem out_of_bounds_absolute_cex :
    cfg0.max_position Axis.x < 100 ∧
    (move_absolute cfg0 drvOK ctrl_init (some 100) (some 1) (some 1)).1 =
      Except.ok () ∧
    (move_absolute cfg0 drvOK ctrl_init (some 100) (some 1) (some 1)).2.2 =
      [⟨BCall.is_connected, true⟩, ⟨BCall.move_absolute 100 1, true⟩] := by
  decide

/-- C7 (amended): `move_absolute` performs no position-bound validation (the
source carries a TODO in `_validate_movement`): whenever the speed is within
both axis ceilings, every target — in or out of bounds — passes validation and
the backend is contacted. -/
theorem absolute_move_no_position_check (cfg : Config) (drv : MesaDriver)
    (st : CtrlState) (x y speed : Rat)
    (hstop : st.emergency_stop_active = false)
    (hx : speed ≤ cfg.max_speed Axis.x) (hy : speed ≤ cfg.max_speed Axis.y) :
    (move_absolute cfg drv st (some x) (some y) (some speed)).1 ≠
      Except.error CtrlError.validationError ∧
    (move_absolute cfg drv st (some x) (some y) (some speed)).2.2 ≠ [] := by
  have hvx : validate_movement cfg Axis.x x speed = none := by
    unfold validate_movement
    simp [not_lt.mpr hx]
  have hvy : validate_movement cfg Axis.y y speed = none := by
    unfold validate_movement
    simp [not_lt.mpr hy]
  unfold move_absolute
  dsimp only
  rw [if_neg (by simp [hstop]), Option.getD_some, Option.getD_some,
    Option.getD_some, hvx, hvy]
  rcases ensure_connected_shape drv true with h | h | h <;> rw [h]
  · rcases h3 : drv.move_absolute x y with ⟨_⟩ | _ <;> simp
  · rcases h3 : drv.move_absolute x y with ⟨_⟩ | _ <;> simp
  · simp

/-- C7 (witness): the amended theorem at the out-of-bounds target x = 100. -/
theorem absolute_move_no_position_check_witness :
    (move_absolute cfg0 drvOK ctrl_init (some 100) (some 1) (some 1)).1 ≠
      Except.error CtrlError.validationError ∧
    (move_absolute cfg0 drvOK ctrl_init (some 100) (some 1) (some 1)).2.2 ≠
      [] :=
  absolute_move_no_position_check cfg0 drvOK ctrl_init 100 1 1
    (by decide) (by decide) (by decide)

/-- C8: omitting the speed substitutes the configured default movement speed
exactly once, before validation: each move operation with speed omitted
behaves identically to the same call with the default passed explicitly, and
when the configured default exceeds the axis max speeds the call fails with
the validation error, the state unchanged and no backend call issued. -/
theorem default_speed_validated (cfg : Config) (drv : MesaDriver)
    (st : CtrlState) (axis : Axis) (d x y : Option Rat)
    (hstop : st.emergency_stop_active = false)
    (hdx : cfg.default_speed > cfg.max_speed Axis.x)
    (hdy : cfg.default_speed > cfg.max_speed Axis.y) :
    move_single_axis cfg drv st axis d none =
      move_single_axis cfg drv st axis d (some cfg.default_speed) ∧
    move_absolute cfg drv st x y none =
      move_absolute cfg drv st x y (some cfg.default_speed) ∧
    move_coordinated cfg drv st x y none =
      move_coordinated cfg drv st x y (some cfg.default_speed) ∧
    move_single_axis cfg drv st axis d none =
      (Except.error CtrlError.validationError, st, []) ∧
    move_absolute cfg drv st x y none =
      (Except.error CtrlError.validationError, st, []) ∧
    move_coordinated cfg drv st x y none =
      (Except.error CtrlError.validationError, st, []) := by
  have hax : cfg.default_speed > cfg.max_speed axis := by
    cases axis <;> assumption
  refine ⟨rfl, rfl, rfl, ?_, ?_, ?_⟩
  · have hv : validate_movement cfg axis (d.getD 0) cfg.default_speed =
        some CtrlError.validationError := by
      unfold validate_movement
      simp [hax]
    unfold move_single_axis
    dsimp only
    rw [if_neg (by simp [hstop]), Option.getD_none, hv]
  · have hv : validate_movement cfg Axis.x (x.getD 0) cfg.default_speed =
        some CtrlError.validationError := by
      unfold validate_movement
      simp [hdx]
    unfold move_absolute
    dsimp only
    rw [if_neg (by simp [hstop]), Option.getD_none, hv]
  · have hv : validate_movement cfg Axis.x (x.getD 0) cfg.default_speed =
        some CtrlError.validationError := by
      unfold validate_movement
      simp [hdx]
    unfold move_coordinated
    dsimp only
    rw [if_neg (by simp [hstop]), Option.getD_none, hv]

/-- C8 (witness): with default speed 20 and max speed 10, an omitted speed is
still rejected by the ceiling check before any backend call. -/
theorem default_speed_validated_witness :
    move_single_axis cfgHighDefault drvOK ctrl_init Axis.x (some 1) none =
      (Except.error CtrlError.validationError, ctrl_init, []) :=
  (default_speed_validated cfgHighDefault drvOK ctrl_init Axis.x
    (some 1) (some 1) (some 1) (by decide) (by decide) (by decide)).2.2.2.1

end XYTable

namespace XYTable

/-- C9: with validation passing and the driver connected, `move_coordinated`
dispatches the X move first; if the X move does not succeed, the Y move is
never dispatched and failure is reported; if the X move succeeds, the Y move
is dispatched as the only further backend call (so a Y failure triggers no
compensating motion) and the call succeeds exactly when the Y move does. -/
theorem coordinated_move_x_then_y (cfg : Config) (drv : MesaDriver)
    (st : CtrlState) (dx dy speed : Rat)
    (hstop : st.emergency_stop_active = false)
    (hx : speed ≤ cfg.max_speed Axis.x) (hy : speed ≤ cfg.max_speed Axis.y)
    (hconn : drv.is_connected = true) :
    (drv.move_axis Axis.x dx speed ≠ BRes.ret true →
      (move_coordinated cfg drv st (some dx) (some dy) (some speed)).2.2 =
        [⟨BCall.is_connected, true⟩, ⟨BCall.move_axis Axis.x dx speed, true⟩] ∧
      (move_coordinated cfg drv st (some dx) (some dy) (some speed)).1 ≠
        Except.ok ()) ∧
    (drv.move_axis Axis.x dx speed = BRes.ret true →
      (move_coordinated cfg drv st (some dx) (some dy) (some speed)).2.2 =
        [⟨BCall.is_connected, true⟩, ⟨BCall.move_axis Axis.x dx speed, true⟩,
          ⟨BCall.move_axis Axis.y dy speed, true⟩] ∧
      ((move_coordinated cfg drv st (some dx) (some dy) (some speed)).1 =
          Except.ok () ↔ drv.move_axis Axis.y dy speed = BRes.ret true)) := by
  have hvx : validate_movement cfg Axis.x dx speed = none := by
    unfold validate_movement
    simp [not_lt.mpr hx]
  have hvy : validate_movement cfg Axis.y dy speed = none := by
    unfold validate_movement
    simp [not_lt.mpr hy]
  have hec : ensure_connected drv true = (none, [⟨BCall.is_connected, true⟩]) := by
    unfold ensure_connected
    simp [hconn]
  unfold move_coordinated
  dsimp only
  rw [if_neg (by simp [hstop]), Option.getD_some, Option.getD_some,
    Option.getD_some, hvx, hvy, hec]
  constructor
  · intro hxfail
    rcases h3 : drv.move_axis Axis.x dx speed with ⟨_ | _⟩ | _
    · simp
    · exact absurd h3 hxfail
    · simp
  · intro hxok
    rw [hxok]
    rcases h4 : drv.move_axis Axis.y dy speed with ⟨_ | _⟩ | _ <;> simp

/-- C9 (witness): X succeeding and Y returning False yields exactly the two
per-axis dispatches, X first, and a reported failure with no further calls. -/
theorem coordinated_move_x_then_y_witness :
    (move_coordinated cfg0 drvYFails ctrl_init (some 1) (some 2) (some 3)).2.2 =
      [⟨BCall.is_connected, true⟩, ⟨BCall.move_axis Axis.x 1 3, true⟩,
        ⟨BCall.move_axis Axis.y 2 3, true⟩] ∧
    (move_coordinated cfg0 drvYFails ctrl_init (some 1) (some 2) (some 3)).1 ≠
      Except.ok () := by
  have h := (coordinated_move_x_then_y cfg0 drvYFails ctrl_init 1 2 3
    (by decide) (by decide) (by decide) (by decide)).2 (by decide)
  refine ⟨h.1, fun hok => ?_⟩
  have hyok := h.2.mp hok
  exact absurd hyok (by decide)

/-- Helper: flag discipline for `move_single_axis`: every backend call is
issued with the movement flag raised, a validation or safety rejection leaves
the state untouched, and any run that reached the backend ends with the flag
lowered. -/
theorem move_single_axis_flag_discipline (cfg : Config) (drv : MesaDriver)
    (st : CtrlState) (axis : Axis) (d s : Option Rat) :
    (∀ e ∈ (move_single_axis cfg drv st axis d s).2.2, e.moving = true) ∧
    ((move_single_axis cfg drv st axis d s).2.2 = [] →
      (move_single_axis cfg drv st axis d s).2.1 = st) ∧
    ((move_single_axis cfg drv st axis d s).2.2 ≠ [] →
      (move_single_axis cfg drv st axis d s).2.1.movement_in_progress =
        false) := by
  unfold move_single_axis
  dsimp only
  cases hstop : st.emergency_stop_active
  case true => simp
  case false =>
    cases hv : validate_movement cfg axis (d.getD 0) (s.getD cfg.default_speed)
    case some e => simp
    case none =>
      rcases ensure_connected_shape drv true with h | h | h <;> rw [h] <;>
        rcases h3 : drv.move_axis axis (d.getD 0) (s.getD cfg.default_speed)
          with ⟨_ | _⟩ | _ <;> simp

/-- Helper: flag discipline for `move_absolute` (same statement shape). -/
theorem move_absolute_flag_discipline (cfg : Config) (drv : MesaDriver)
    (st : CtrlState) (x y s : Option Rat) :
    (∀ e ∈ (move_absolute cfg drv st x y s).2.2, e.moving = true) ∧
    ((move_absolute cfg drv st x y s).2.2 = [] →
      (move_absolute cfg drv st x y s).2.1 = st) ∧
    ((move_absolute cfg drv st x y s).2.2 ≠ [] →
      (move_absolute cfg drv st x y s).2.1.movement_in_progress = false) := by
  unfold move_absolute
  dsimp only
  cases hstop : st.emergency_stop_active
  case true => simp
  case false =>
    cases hvx : validate_movement cfg Axis.x (x.getD 0) (s.getD cfg.default_speed)
    case some e => simp
    case none =>
      cases hvy : validate_movement cfg Axis.y (y.getD 0) (s.getD cfg.default_speed)
      case some e => simp
      case none =>
        rcases ensure_connected_shape drv true with h | h | h <;> rw [h] <;>
          rcases h3 : drv.move_absolute (x.getD 0) (y.getD 0)
            with ⟨_⟩ | _ <;> simp

/-- Helper: flag discipline for `move_coordinated` (same statement shape). -/
theorem move_coordinated_flag_discipline (cfg : Config) (drv : MesaDriver)
    (st : CtrlState) (dx dy s : Option Rat) :
    (∀ e ∈ (move_coordinated cfg drv st dx dy s).2.2, e.moving = true) ∧
    ((move_coordinated cfg drv st dx dy s).2.2 = [] →
      (move_coordinated cfg drv st dx dy s).2.1 = st) ∧
    ((move_coordinated cfg drv st dx dy s).2.2 ≠ [] →
      (move_coordinated cfg drv st dx dy s).2.1.movement_in_progress =
        false) := by
  unfold move_coordinated
  dsimp only
  cases hstop : st.emergency_stop_active
  case true => simp
  case false =>
    cases hvx : validate_movement cfg Axis.x (dx.getD 0) (s.getD cfg.default_speed)
    case some e => simp
    case none =>
      cases hvy : validate_movement cfg Axis.y (dy.getD 0) (s.getD cfg.default_speed)
      case some e => simp
      case none =>
        rcases ensure_connected_shape drv true with h | h | h <;> rw [h] <;>
          rcases h3 : drv.move_axis Axis.x (dx.getD 0) (s.getD cfg.default_speed)
            with ⟨_ | _⟩ | _ <;>
          rcases h4 : drv.move_axis Axis.y (dy.getD 0) (s.getD cfg.default_speed)
            with ⟨_ | _⟩ | _ <;> simp

/-- Helper: flag discipline for `home_axes`: every backend call carries the
raised flag and the flag is lowered on return on every path. -/
theorem home_axes_flag_discipline (drv : MesaDriver) (st : CtrlState)
    (s : Option Rat) :
    (∀ e ∈ (home_axes drv st s).2.2, e.moving = true) ∧
    (home_axes drv st s).2.1.movement_in_progress = false := by
  unfold home_axes
  dsimp only
  rcases ensure_connected_shape drv true with h | h | h <;> rw [h] <;>
    rcases h3 : drv.home_all_axes with ⟨_ | _⟩ | _ <;> simp

/-- C10: the movement-in-progress flag starts false; in every motion
operation each backend call is issued with the flag raised, and on return the
flag is false on every exit path that reached the backend, while runs rejected
before dispatch leave the state untouched (`home_axes` always dispatches, so
its final flag is unconditionally false). -/
theorem movement_flag_discipline :
    ctrl_init.movement_in_progress = false ∧
    (∀ cfg drv st axis d s,
      (∀ e ∈ (move_single_axis cfg drv st axis d s).2.2, e.moving = true) ∧
      ((move_single_axis cfg drv st axis d s).2.2 = [] →
        (move_single_axis cfg drv st axis d s).2.1 = st) ∧
      ((move_single_axis cfg drv st axis d s).2.2 ≠ [] →
        (move_single_axis cfg drv st axis d s).2.1.movement_in_progress =
          false)) ∧
    (∀ cfg drv st x y s,
      (∀ e ∈ (move_absolute cfg drv st x y s).2.2, e.moving = true) ∧
      ((move_absolute cfg drv st x y s).2.2 = [] →
        (move_absolute cfg drv st x y s).2.1 = st) ∧
      ((move_absolute cfg drv st x y s).2.2 ≠ [] →
        (move_absolute cfg drv st x y s).2.1.movement_in_progress = false)) ∧
    (∀ cfg drv st dx dy s,
      (∀ e ∈ (move_coordinated cfg drv st dx dy s).2.2, e.moving = true) ∧
      ((move_coordinated cfg drv st dx dy s).2.2 = [] →
        (move_coordinated cfg drv st dx dy s).2.1 = st) ∧
      ((move_coordinated cfg drv st dx dy s).2.2 ≠ [] →
        (move_coordinated cfg drv st dx dy s).2.1.movement_in_progress =
          false)) ∧
    (∀ drv st s,
      (∀ e ∈ (home_axes drv st s).2.2, e.moving = true) ∧
      (home_axes drv st s).2.1.movement_in_progress = false) :=
  ⟨rfl,
    fun cfg drv st axis d s =>
      move_single_axis_flag_discipline cfg drv st axis d s,
    fun cfg drv st x y s => move_absolute_flag_discipline cfg drv st x y s,
    fun cfg drv st dx dy s =>
      move_coordinated_flag_discipline cfg drv st dx dy s,
    fun drv st s => home_axes_flag_discipline drv st s⟩

/-- C10 (witness): the discipline theorem at a concrete successful move: the
flag reads false after the call returns. -/
theorem movement_flag_discipline_witness :
    (move_single_axis cfg0 drvOK ctrl_init Axis.x (some 1)
      (some 1)).2.1.movement_in_progress = false :=
  (movement_flag_discipline.2.1 cfg0 drvOK ctrl_init Axis.x (some 1)
    (some 1)).2.2 (by decide)

end XYTable
